import Mathlib

/-!
Shallow embedding of the UDV Documents module
(src/UDV-Core/src/Modules/Documents/DocumentsHandler.js, which also holds the
Document constructor).

The DocumentsHandler is a bundle of mutable fields (flags, the document
catalog, the current document) together with the DOM elements it writes
(opacity of the full image, slider values, displayed texts, display toggles)
and the THREE.js scene into which billboard planes are added.  We model that
mutable footprint as one record, `HandlerState`, and every method of the
handler as a pure function on it.

Modelling conventions:
  - JS numbers that may be NaN (the results of parseFloat on csv cells) are
    `JsNum := Option Rat`, with `none` standing for NaN; arithmetic and
    comparisons follow JS semantics (NaN propagates, comparisons with NaN are
    false, strict equality with NaN is false).
  - DOM writes are recorded in fields of `HandlerState` named after the
    element they target.
  - The THREE.js scene is modelled as the finite set of billboard objects it
    holds; the billboard plane of the document at position i of AllDocuments
    is keyed (i, false) and its wireframe frame (i, true).
  - External collaborators are kept abstract: controls.initiateTravel is
    reported as the returned travel command, the raycaster result of
    onMouseClick is taken as an input list, parseFloat and the csv reader are
    parameters, moment(s) is modelled by the raw date string, and
    temporal.changeTime plus view.notifyChange touch no handler state.
  - Methods that would throw a TypeError on a null currentDoc dereference
    (focusOnDoc, nextDoc, previousDoc, updateBrowser) throw before mutating
    anything, so the thrown case leaves the state unchanged.
  - The billboard lookAt block at the end of update only reorients billboard
    meshes toward the camera; mesh orientation is not part of any modelled
    field, so update carries the rest of the method unchanged.
-/

namespace UDV

/-- A JS number that may be NaN: `none` is NaN, `some q` a finite value
(reals modelled as rationals). -/
abbrev JsNum := Option ℚ

/-- JS isNaN on a parseFloat result. -/
def isNaNJs (a : JsNum) : Bool := a.isNone

/-- JS addition: NaN propagates. -/
def jsAdd (a b : JsNum) : JsNum :=
  match a, b with
  | some x, some y => some (x + y)
  | _, _ => none

/-- JS subtraction: NaN propagates. -/
def jsSub (a b : JsNum) : JsNum :=
  match a, b with
  | some x, some y => some (x - y)
  | _, _ => none

/-- JS comparison a >= b: false when either side is NaN. -/
def jsGe (a b : JsNum) : Bool :=
  match a, b with
  | some x, some y => decide (y ≤ x)
  | _, _ => false

/-- JS strict equality === on numbers: NaN === x is always false. -/
def jsStrictEq (a b : JsNum) : Bool :=
  match a, b with
  | some x, some y => decide (x = y)
  | _, _ => false

/-- JS Math.trunc: rounds toward zero. -/
def jsTrunc (q : ℚ) : ℚ :=
  if 0 ≤ q then (⌊q⌋ : ℚ) else (⌈q⌉ : ℚ)

/-- THREE.Vector3 whose components come from parseFloat (may be NaN). -/
structure Vec3 where
  x : JsNum
  y : JsNum
  z : JsNum
deriving DecidableEq

/-- THREE.Quaternion whose components come from parseFloat (may be NaN). -/
structure Quat where
  x : JsNum
  y : JsNum
  z : JsNum
  w : JsNum
deriving DecidableEq

/-- A billboard mesh as far as the handler observes it: where it was placed,
the render layer set by layers.set(1), and whether its userData carries the
billboard marker (set on the image plane, not on the wireframe frame). -/
structure Geometry where
  position : Vec3
  layer : ℕ
  userDataTypeIsBillboard : Bool
deriving DecidableEq

/-- The Document record built by the Document constructor. -/
structure Document where
  title : String
  index : JsNum
  doc_ID : JsNum
  imageSourceHD : String
  imageSourceBD : String
  billboardPosition : Vec3
  viewPosition : Vec3
  viewQuaternion : Quat
  startDate : String
  metaData : String
  useBillboard : Bool
  billboardGeometry : Option Geometry
  billboardGeometryFrame : Option Geometry
deriving DecidableEq

/-- The Document constructor: computes useBillboard from the billboard
position (all three components not NaN) and, exactly in that case, runs
createBillboard, which places both meshes at billboardPosition, sets both to
layer 1 and installs the billboard userData on the image plane only. -/
def mkDocument (docTitle : String) (docIndex : JsNum) (docID : JsNum)
    (docImageSourceHD : String) (docImageSourceBD : String)
    (billboardPosition : Vec3) (docViewPosition : Vec3)
    (docViewQuaternion : Quat) (docDate : String) (metaData : String) :
    Document :=
  let useB : Bool := !(isNaNJs billboardPosition.x) &&
    !(isNaNJs billboardPosition.y) && !(isNaNJs billboardPosition.z)
  { title := docTitle
    index := docIndex
    doc_ID := docID
    imageSourceHD := docImageSourceHD
    imageSourceBD := docImageSourceBD
    billboardPosition := billboardPosition
    viewPosition := docViewPosition
    viewQuaternion := docViewQuaternion
    startDate := docDate
    metaData := metaData
    useBillboard := useB
    billboardGeometry :=
      if useB then
        some { position := billboardPosition, layer := 1,
               userDataTypeIsBillboard := true }
      else none
    billboardGeometryFrame :=
      if useB then
        some { position := billboardPosition, layer := 1,
               userDataTypeIsBillboard := false }
      else none }

/-- JS array indexing AllDocuments[k] with a JS number k: yields a Document
only when k is a nonnegative integer within bounds, undefined (none)
otherwise, in particular when k is NaN. -/
def jsIndexList (docs : List Document) (a : JsNum) : Option Document :=
  match a with
  | none => none
  | some q => if q.den = 1 ∧ 0 ≤ q.num then docs.get? q.num.toNat else none

/-- The mutable footprint of the DocumentsHandler: its own fields, the DOM
elements it writes, and the billboard content of the THREE.js scene. -/
structure HandlerState where
  AllDocuments : List Document
  currentDoc : Option Document
  fadeDuration : ℚ
  isOrientingDoc : Bool
  isFadingDoc : Bool
  fadeAlpha : ℚ
  billboardsAreActive : Bool
  docBrowserWindowIsActive : Bool
  scene : Finset (ℕ × Bool)
  docFullImgOpacity : ℚ
  docFullImgSrc : Option String
  docFullDisplay : Bool
  docFullPanelDisplay : Bool
  docOpaSliderValue : ℚ
  docOpacityValue : ℚ
  docBrowserPreviewImgSrc : String
  docBrowserTitle : String
  docBrowserMetaData : String
  docBrowserIndexShown : JsNum
  docBrowserWindowDisplay : Bool
  toggleBillboardBtnText : String
deriving DecidableEq

/-- updateBrowser: writes the current document preview image, metadata,
title and index into the browser window.  On a null currentDoc JS would
throw before any DOM write, leaving the state unchanged. -/
def updateBrowser (s : HandlerState) : HandlerState :=
  match s.currentDoc with
  | none => s
  | some doc =>
    { s with docBrowserPreviewImgSrc := doc.imageSourceBD
             docBrowserMetaData := doc.metaData
             docBrowserTitle := doc.title
             docBrowserIndexShown := doc.index }

/-- nextDoc: reads currentDoc.index, returns unchanged when index+1 >=
AllDocuments.length (a comparison that is false for NaN), otherwise moves
currentDoc to AllDocuments[index+1] and refreshes the browser. -/
def nextDoc (s : HandlerState) : HandlerState :=
  match s.currentDoc with
  | none => s
  | some doc =>
    let idx1 := jsAdd doc.index (some 1)
    if jsGe idx1 (some ((s.AllDocuments.length : ℚ))) then s
    else updateBrowser { s with currentDoc := jsIndexList s.AllDocuments idx1 }

/-- previousDoc: returns unchanged when currentDoc.index === 0, otherwise
moves currentDoc to AllDocuments[index-1] and refreshes the browser. -/
def previousDoc (s : HandlerState) : HandlerState :=
  match s.currentDoc with
  | none => s
  | some doc =>
    if jsStrictEq doc.index (some 0) then s
    else
      updateBrowser
        { s with currentDoc :=
            jsIndexList s.AllDocuments (jsSub doc.index (some 1)) }

/-- The forEach of showBillboards: scene.add of the plane (i,false) and the
frame (i,true) of every document with useBillboard, positions counted from
i. -/
def addBillboards : ℕ → List Document → Finset (ℕ × Bool) → Finset (ℕ × Bool)
  | _, [], sc => sc
  | i, d :: ds, sc =>
    addBillboards (i + 1) ds
      (if d.useBillboard then insert (i, true) (insert (i, false) sc) else sc)

/-- The forEach of hideBillboards: scene.remove of the plane and frame of
every document with useBillboard. -/
def removeBillboards :
    ℕ → List Document → Finset (ℕ × Bool) → Finset (ℕ × Bool)
  | _, [], sc => sc
  | i, d :: ds, sc =>
    removeBillboards (i + 1) ds
      (if d.useBillboard then (sc.erase (i, true)).erase (i, false) else sc)

/-- showBillboards(forceShow): does nothing when neither forceShow nor
billboardsAreActive, otherwise relabels the toggle button and adds every
useBillboard documents plane and frame to the scene. -/
def showBillboards (forceShow : Bool) (s : HandlerState) : HandlerState :=
  if !forceShow && !s.billboardsAreActive then s
  else
    { s with toggleBillboardBtnText := "Masquer Billboards"
             scene := addBillboards 0 s.AllDocuments s.scene }

/-- hideBillboards(forceHide): does nothing when not forceHide while
billboardsAreActive, otherwise relabels the toggle button and removes every
useBillboard documents plane and frame from the scene. -/
def hideBillboards (forceHide : Bool) (s : HandlerState) : HandlerState :=
  if !forceHide && s.billboardsAreActive then s
  else
    { s with toggleBillboardBtnText := "Afficher Billboards"
             scene := removeBillboards 0 s.AllDocuments s.scene }

/-- toggleBillboards: flips billboardsAreActive and forces the matching
whole-group show or hide. -/
def toggleBillboards (s : HandlerState) : HandlerState :=
  if s.billboardsAreActive then
    hideBillboards true { s with billboardsAreActive := false }
  else
    showBillboards true { s with billboardsAreActive := true }

/-- The body of focusOnDoc once currentDoc is known non-null: shows the full
image at opacity 0, issues the travel command exactly when viewPosition.x
and viewQuaternion.x are both not NaN, hides the billboards, and enters the
orienting state.  The travel command handed to controls.initiateTravel is
returned alongside the new state (temporal.changeTime and
view.notifyChange touch collaborators outside the modelled state). -/
def focusOnDocCore (doc : Document) (s : HandlerState) :
    HandlerState × Option (Vec3 × Quat) :=
  let s1 := { s with docFullImgSrc := some doc.imageSourceHD
                     docBrowserPreviewImgSrc := doc.imageSourceBD
                     docFullImgOpacity := 0
                     docOpaSliderValue := 0
                     docOpacityValue := 0
                     docFullDisplay := true
                     docFullPanelDisplay := false }
  let travel : Option (Vec3 × Quat) :=
    if !(isNaNJs doc.viewPosition.x) && !(isNaNJs doc.viewQuaternion.x) then
      some (doc.viewPosition, doc.viewQuaternion)
    else none
  let s2 := hideBillboards true s1
  ({ s2 with isOrientingDoc := true, isFadingDoc := false }, travel)

/-- focusOnDoc: on a null currentDoc JS throws on the very first line,
before any mutation, so the state is unchanged and no travel is issued. -/
def focusOnDoc (s : HandlerState) : HandlerState × Option (Vec3 × Quat) :=
  match s.currentDoc with
  | none => (s, none)
  | some doc => focusOnDocCore doc s

/-- toggleDocBrowserWindow: sets the window display from the flag, then
reassigns the flag to (flag ? true : false). -/
def toggleDocBrowserWindow (s : HandlerState) : HandlerState :=
  { s with docBrowserWindowDisplay := s.docBrowserWindowIsActive
           docBrowserWindowIsActive :=
             if s.docBrowserWindowIsActive then true else false }

/-- The first if block of update: when the handler is orienting and the
controls report state -1 (travel finished), switch to the fading state with
fadeAlpha 0, zero the opacity displays and show the full panel. -/
def orientTransition (ctrl : Int) (s : HandlerState) : HandlerState :=
  if s.isOrientingDoc && (ctrl == -1) then
    { s with isOrientingDoc := false
             isFadingDoc := true
             fadeAlpha := 0
             docOpaSliderValue := 0
             docOpacityValue := 0
             docFullImgOpacity := 0
             docFullPanelDisplay := true }
  else s

/-- The second if block of update: while fading, advance fadeAlpha by
dt / fadeDuration; at fadeAlpha >= 1 end the fade at opacity exactly 1,
otherwise display the new fadeAlpha. -/
def fadeStep (dt : ℚ) (s : HandlerState) : HandlerState :=
  if s.isFadingDoc then
    let fa := s.fadeAlpha + dt / s.fadeDuration
    if 1 ≤ fa then
      { s with fadeAlpha := fa
               isFadingDoc := false
               docFullImgOpacity := 1
               docOpaSliderValue := 100
               docOpacityValue := 100 }
    else
      { s with fadeAlpha := fa
               docFullImgOpacity := fa
               docOpaSliderValue := fa * 100
               docOpacityValue := jsTrunc (fa * 100) }
  else s

/-- update(dt, updateLoopRestarted), with the controls state it observes as
an input: dt is forced to 16 when the update loop restarted, then the
orienting-to-fading transition runs, then the fade step. -/
def update (dt0 : ℚ) (updateLoopRestarted : Bool) (ctrl : Int)
    (s : HandlerState) : HandlerState :=
  let dt := if updateLoopRestarted then 16 else dt0
  fadeStep dt (orientTransition ctrl s)

/-- The userData carried by an object the click ray intersected: either the
billboard marker with its document, or anything else. -/
inductive UserData where
  | billboard (doc : Document)
  | other
deriving DecidableEq

/-- An object returned by raycaster.intersectObjects, as far as onMouseClick
inspects it. -/
structure SceneObject where
  userData : UserData
deriving DecidableEq

/-- The test of the onMouseClick loop: userData.type === billboard. -/
def isBillboardObject (o : SceneObject) : Bool :=
  match o.userData with
  | UserData.billboard _ => true
  | UserData.other => false

/-- The for loop of onMouseClick: walk the intersections in order; at the
first billboard set currentDoc to its document, run focusOnDoc and break. -/
def onMouseClickLoop (s : HandlerState) :
    List SceneObject → HandlerState × Option (Vec3 × Quat)
  | [] => (s, none)
  | o :: rest =>
    match o.userData with
    | UserData.billboard doc => focusOnDoc { s with currentDoc := some doc }
    | UserData.other => onMouseClickLoop s rest

/-- onMouseClick, with the raycaster result (the intersections, nearest
first) as input. -/
def onMouseClick (intersects : List SceneObject) (s : HandlerState) :
    HandlerState × Option (Vec3 × Quat) :=
  onMouseClickLoop s intersects

/-- A csv data row as the initialize loop reads it: 17 cells
(index, doc_ID, HD image, BD image, title, date, metadata, view position
x y z, view quaternion x y z w, billboard position x y z). -/
abbrev Row := Fin 17 → String

/-- The body of the initialize loop: one csv row to one Document, numeric
cells through parseFloat, image paths prefixed with the docs directory,
moment(date) modelled by the raw date cell. -/
def mkDocFromRow (parseFloat : String → JsNum) (row : Row) : Document :=
  let docIndex := parseFloat (row 0)
  let docID := parseFloat (row 1)
  let hd := "Vilo3D/Docs/" ++ row 2
  let bd := "Vilo3D/Docs/" ++ row 3
  let docTitle := row 4
  let docDate := row 5
  let meta := row 6
  let viewPos : Vec3 :=
    { x := parseFloat (row 7), y := parseFloat (row 8), z := parseFloat (row 9) }
  let viewQuat : Quat :=
    { x := parseFloat (row 10), y := parseFloat (row 11),
      z := parseFloat (row 12), w := parseFloat (row 13) }
  let bbPos : Vec3 :=
    { x := parseFloat (row 14), y := parseFloat (row 15),
      z := parseFloat (row 16) }
  mkDocument docTitle docIndex docID hd bd bbPos viewPos viewQuat docDate meta

/-- initialize(docDataFromFile): push one Document per row in row order,
load the first document as current, refresh the browser, then show or hide
the billboards according to billboardsAreActive (dispatching initEvent is
external). -/
def initializeHandler (parseFloat : String → JsNum) (rows : List Row)
    (s : HandlerState) : HandlerState :=
  let docs := s.AllDocuments ++ rows.map (mkDocFromRow parseFloat)
  let s1 := { s with AllDocuments := docs, currentDoc := docs.get? 0 }
  let s2 := updateBrowser s1
  if s1.billboardsAreActive then showBillboards true s2
  else hideBillboards true s2

/-- One call to update as scheduled by the itowns frame requester: the
elapsed dt, the restarted flag, and the controls state it observes. -/
structure UStep where
  dt : ℚ
  restarted : Bool
  ctrl : Int
deriving DecidableEq

/-- A sequence of update calls. -/
def runUpdates (steps : List UStep) (s : HandlerState) : HandlerState :=
  steps.foldl (fun t st => update st.dt st.restarted st.ctrl t) s

/-- An operation of the orienting and fading state machine: a focusOnDoc
call or an update call. -/
inductive HandlerOp where
  | focus
  | upd (dt : ℚ) (restarted : Bool) (ctrl : Int)

/-- Run one state machine operation. -/
def runOp (s : HandlerState) (op : HandlerOp) : HandlerState :=
  match op with
  | HandlerOp.focus => (focusOnDoc s).1
  | HandlerOp.upd dt r c => update dt r c s

/-- Run a sequence of focusOnDoc and update calls. -/
def runOps (ops : List HandlerOp) (s : HandlerState) : HandlerState :=
  ops.foldl runOp s

/-! Concrete sample data, used to exercise the theorems on closed inputs. -/

/-- A position with all three components valid. -/
def sampleVec : Vec3 := { x := some 1, y := some 2, z := some 3 }

/-- A position with all three components NaN. -/
def sampleNaNVec : Vec3 := { x := none, y := none, z := none }

/-- A quaternion with all components valid. -/
def sampleQuat : Quat := { x := some 0, y := some 0, z := some 0, w := some 1 }

/-- A quaternion with all components NaN. -/
def sampleNaNQuat : Quat := { x := none, y := none, z := none, w := none }

/-- A document with a billboard and a valid camera pose, csv line 0. -/
def sampleDoc : Document :=
  mkDocument "title" (some 0) (some 10) "hd" "bd" sampleVec sampleVec
    sampleQuat "1900" "meta"

/-- A document with no billboard and no camera pose, csv line 1. -/
def sampleDoc1 : Document :=
  mkDocument "t2" (some 1) (some 11) "hd2" "bd2" sampleNaNVec sampleNaNVec
    sampleNaNQuat "1901" "m2"

/-- The handler state right after the constructor ran, before any document
was loaded: empty catalog, null current document, default fade duration,
both animation flags down, empty scene, page-default DOM values. -/
def sampleState : HandlerState :=
  { AllDocuments := []
    currentDoc := none
    fadeDuration := 2750
    isOrientingDoc := false
    isFadingDoc := false
    fadeAlpha := 0
    billboardsAreActive := false
    docBrowserWindowIsActive := false
    scene := ∅
    docFullImgOpacity := 1
    docFullImgSrc := none
    docFullDisplay := false
    docFullPanelDisplay := false
    docOpaSliderValue := 75
    docOpacityValue := 50
    docBrowserPreviewImgSrc := "DefaultImage"
    docBrowserTitle := "doc title"
    docBrowserMetaData := "metadata"
    docBrowserIndexShown := none
    docBrowserWindowDisplay := false
    toggleBillboardBtnText := "Billboard" }

/-- A state with two loaded documents and the first one current. -/
def navState : HandlerState :=
  { sampleState with AllDocuments := [sampleDoc, sampleDoc1]
                     currentDoc := some sampleDoc }

/-- A state in the middle of the camera travel of an oriented view. -/
def orientingState : HandlerState :=
  { sampleState with isOrientingDoc := true }

/-- A state at the very start of the fade-in. -/
def fadingState : HandlerState :=
  { sampleState with isFadingDoc := true
                     fadeAlpha := 0
                     docFullImgOpacity := 0 }

/-- A concrete csv row whose cells all hold the same text. -/
def sampleRow : Row := fun _ => "7"

/-- A concrete stand-in for parseFloat that parses nothing. -/
def samplePF : String → JsNum := fun _ => none

/-! Theorems. -/

/-- While the handler is orienting, not fading, and the controls are not
idle, one update call leaves the state unchanged. -/
theorem update_orienting_not_idle (dt : ℚ) (r : Bool) (c : Int)
    (s : HandlerState) (ho : s.isOrientingDoc = true)
    (hf : s.isFadingDoc = false) (hc : c ≠ -1) :
    update dt r c s = s := by
  have hc2 : (c == -1) = false := by
    simpa using hc
  simp [update, orientTransition, fadeStep, ho, hf, hc2]

/-- While the handler is orienting, not fading, and no update observes idle
controls, a whole sequence of update calls leaves the state unchanged. -/
theorem runUpdates_orienting (steps : List UStep) :
    ∀ s : HandlerState, s.isOrientingDoc = true → s.isFadingDoc = false →
      (∀ st ∈ steps, st.ctrl ≠ -1) → runUpdates steps s = s := by
  induction steps with
  | nil => intro s _ _ _; rfl
  | cons st rest ih =>
    intro s ho hf hall
    have h1 : update st.dt st.restarted st.ctrl s = s :=
      update_orienting_not_idle _ _ _ s ho hf (hall st (by simp))
    show runUpdates rest (update st.dt st.restarted st.ctrl s) = s
    rw [h1]
    exact ih s ho hf fun x hx => hall x (by simp [hx])

/-- One update call on a fading, non-orienting state, written out: fadeAlpha
advances by dt / fadeDuration; the fade ends at 1 or displays the new
alpha. -/
theorem update_fading (dt : ℚ) (c : Int) (s : HandlerState)
    (hor : s.isOrientingDoc = false) (hfa : s.isFadingDoc = true) :
    update dt false c s =
      if 1 ≤ s.fadeAlpha + dt / s.fadeDuration then
        { s with fadeAlpha := s.fadeAlpha + dt / s.fadeDuration
                 isFadingDoc := false
                 docFullImgOpacity := 1
                 docOpaSliderValue := 100
                 docOpacityValue := 100 }
      else
        { s with fadeAlpha := s.fadeAlpha + dt / s.fadeDuration
                 docFullImgOpacity := s.fadeAlpha + dt / s.fadeDuration
                 docOpaSliderValue := (s.fadeAlpha + dt / s.fadeDuration) * 100
                 docOpacityValue :=
                   jsTrunc ((s.fadeAlpha + dt / s.fadeDuration) * 100) } := by
  simp [update, orientTransition, fadeStep, hor, hfa]

/-- One update call on a state that is neither orienting nor fading leaves
the state unchanged. -/
theorem update_idle_state (dt : ℚ) (r : Bool) (c : Int) (s : HandlerState)
    (hor : s.isOrientingDoc = false) (hfa : s.isFadingDoc = false) :
    update dt r c s = s := by
  simp [update, orientTransition, fadeStep, hor, hfa]

/-- Running updates through a fade: from a fading state whose displayed
opacity equals fadeAlpha the final opacity is min 1 of the accumulated
alpha, and once the fade has ended at opacity 1 further updates keep it
there. -/
theorem fadeRun_opacity (c : Int) :
    ∀ (dts : List ℚ) (s : HandlerState), (∀ d ∈ dts, 0 ≤ d) →
      s.isOrientingDoc = false → 0 < s.fadeDuration →
      (s.isFadingDoc = true → s.docFullImgOpacity = s.fadeAlpha →
         0 ≤ s.fadeAlpha → s.fadeAlpha < 1 →
         (runUpdates (dts.map fun d => ⟨d, false, c⟩) s).docFullImgOpacity =
           min 1 (s.fadeAlpha + dts.sum / s.fadeDuration)) ∧
      (s.isFadingDoc = false → s.docFullImgOpacity = 1 →
         (runUpdates (dts.map fun d => ⟨d, false, c⟩) s).docFullImgOpacity =
           1) := by
  intro dts
  induction dts with
  | nil =>
    intro s _ _ _
    constructor
    · intro _ hop _ hlt
      simp [runUpdates, hop, min_eq_right (le_of_lt hlt)]
    · intro _ hop
      simpa [runUpdates] using hop
  | cons d dts ih =>
    intro s hnn hor hfd
    have hd : (0 : ℚ) ≤ d := hnn d (by simp)
    have hsum : (0 : ℚ) ≤ dts.sum :=
      List.sum_nonneg fun x hx => hnn x (by simp [hx])
    have hnn2 : ∀ x ∈ dts, (0 : ℚ) ≤ x := fun x hx => hnn x (by simp [hx])
    have hstep : runUpdates ((d :: dts).map fun x => ⟨x, false, c⟩) s =
        runUpdates (dts.map fun x => ⟨x, false, c⟩) (update d false c s) :=
      rfl
    constructor
    · intro hfa hop ha0 ha1
      rw [hstep, update_fading d c s hor hfa]
      by_cases h1 : (1 : ℚ) ≤ s.fadeAlpha + d / s.fadeDuration
      · rw [if_pos h1]
        have hfin :=
          (ih { s with fadeAlpha := s.fadeAlpha + d / s.fadeDuration
                       isFadingDoc := false
                       docFullImgOpacity := 1
                       docOpaSliderValue := 100
                       docOpacityValue := 100 } hnn2 hor hfd).2 rfl rfl
        rw [hfin]
        have hone : (1 : ℚ) ≤ s.fadeAlpha + (d :: dts).sum / s.fadeDuration := by
          have hq : (0 : ℚ) ≤ dts.sum / s.fadeDuration :=
            div_nonneg hsum (le_of_lt hfd)
          calc (1 : ℚ) ≤ s.fadeAlpha + d / s.fadeDuration := h1
            _ ≤ s.fadeAlpha + d / s.fadeDuration +
                dts.sum / s.fadeDuration := le_add_of_nonneg_right hq
            _ = s.fadeAlpha + (d :: dts).sum / s.fadeDuration := by
                rw [List.sum_cons, add_div]; ring
        rw [min_eq_left hone]
      · rw [if_neg h1]
        have ha2 : (0 : ℚ) ≤ s.fadeAlpha + d / s.fadeDuration :=
          add_nonneg ha0 (div_nonneg hd (le_of_lt hfd))
        have hlt2 : s.fadeAlpha + d / s.fadeDuration < 1 := not_le.mp h1
        have hfin :=
          (ih { s with fadeAlpha := s.fadeAlpha + d / s.fadeDuration
                       docFullImgOpacity := s.fadeAlpha + d / s.fadeDuration
                       docOpaSliderValue :=
                         (s.fadeAlpha + d / s.fadeDuration) * 100
                       docOpacityValue :=
                         jsTrunc ((s.fadeAlpha + d / s.fadeDuration) * 100) }
            hnn2 hor hfd).1 hfa rfl ha2 hlt2
        rw [hfin, List.sum_cons, add_div, ← add_assoc]
    · intro hfa hop
      rw [hstep, update_idle_state d false c s hor hfa]
      exact (ih s hnn2 hor hfd).2 hfa hop

/-- Claim C1: in oriented view the fade-in begins only after the animated
travel has finished.  After focusOnDoc the handler is orienting and not
fading; every update that observes controls.state different from -1 leaves
the orienting flag up, the fading flag down, and the full image opacity and
fadeAlpha untouched.  The first update that observes controls.state = -1
switches to the fading state and restarts the fade from opacity 0: its
resulting fadeAlpha and opacity are dt / fadeDuration regardless of the
previous fadeAlpha.  A later update, idle controls or not, does not restart
the fade: it only accumulates on top of dt / fadeDuration. -/
theorem claim_C1_fade_waits_for_travel (s : HandlerState)
    (horient : s.isOrientingDoc = true) (hfade : s.isFadingDoc = false)
    (steps : List UStep) (hsteps : ∀ st ∈ steps, st.ctrl ≠ -1)
    (dt : ℚ) (hlt : dt / s.fadeDuration < 1) :
    ((runUpdates steps s).isOrientingDoc = true ∧
     (runUpdates steps s).isFadingDoc = false ∧
     (runUpdates steps s).docFullImgOpacity = s.docFullImgOpacity ∧
     (runUpdates steps s).fadeAlpha = s.fadeAlpha) ∧
    ((update dt false (-1) s).isOrientingDoc = false ∧
     (update dt false (-1) s).isFadingDoc = true ∧
     (update dt false (-1) s).fadeAlpha = dt / s.fadeDuration ∧
     (update dt false (-1) s).docFullImgOpacity = dt / s.fadeDuration) ∧
    (∀ dt2 c2,
       (update dt2 false c2 (update dt false (-1) s)).isOrientingDoc =
         false ∧
       (update dt2 false c2 (update dt false (-1) s)).fadeAlpha =
         dt / s.fadeDuration + dt2 / s.fadeDuration) := by
  have hrun : runUpdates steps s = s := runUpdates_orienting steps s horient hfade hsteps
  have hne : ¬(1 : ℚ) ≤ dt / s.fadeDuration := not_le.mpr hlt
  have hkey : update dt false (-1) s =
      { s with isOrientingDoc := false
               isFadingDoc := true
               fadeAlpha := dt / s.fadeDuration
               docFullImgOpacity := dt / s.fadeDuration
               docOpaSliderValue := (dt / s.fadeDuration) * 100
               docOpacityValue := jsTrunc ((dt / s.fadeDuration) * 100)
               docFullPanelDisplay := true } := by
    simp [update, orientTransition, fadeStep, horient, hne]
  refine ⟨by rw [hrun]; exact ⟨horient, hfade, rfl, rfl⟩,
          by rw [hkey]; exact ⟨rfl, rfl, rfl, rfl⟩, ?_⟩
  intro dt2 c2
  rw [hkey]
  by_cases h2 : (1 : ℚ) ≤ dt / s.fadeDuration + dt2 / s.fadeDuration
  · simp [update, orientTransition, fadeStep, h2]
  · simp [update, orientTransition, fadeStep, h2]

/-- Witness for C1 on concrete inputs: a non-idle update leaves the
orienting state alone, and the first idle update starts the fade with
fadeAlpha 16 / 2750. -/
theorem claim_C1_witness :
    (runUpdates [⟨100, false, 0⟩] orientingState).isOrientingDoc = true ∧
    (update 16 false (-1) orientingState).isFadingDoc = true ∧
    (update 16 false (-1) orientingState).fadeAlpha = 16 / 2750 := by
  have h := claim_C1_fade_waits_for_travel orientingState rfl rfl
    [⟨100, false, 0⟩] (by decide) 16 (by norm_num [orientingState, sampleState])
  exact ⟨h.1.1, h.2.1.2.1, h.2.1.2.2.1⟩

/-- Claim C2: the opacity fade-in is linear in elapsed time and completes
at full opacity.  While isFadingDoc holds, each update advances fadeAlpha by
exactly dt / fadeDuration and displays the new fadeAlpha as the full image
opacity; as soon as the accumulated fadeAlpha reaches 1, the fade ends
(isFadingDoc goes false) with the opacity set exactly to 1.  Consequently,
for a fade started at fadeAlpha 0 and opacity 0 and run over any sequence
of nonnegative dts the displayed opacity is min 1 (total dt /
fadeDuration). -/
theorem claim_C2_linear_fade (s : HandlerState) (c : Int)
    (hor : s.isOrientingDoc = false) (hfa : s.isFadingDoc = true)
    (hfd : 0 < s.fadeDuration) (ha : s.fadeAlpha = 0)
    (hop : s.docFullImgOpacity = 0)
    (dts : List ℚ) (hdts : ∀ d ∈ dts, 0 ≤ d) :
    (∀ (s2 : HandlerState) (dt2 : ℚ) (c2 : Int),
       s2.isOrientingDoc = false → s2.isFadingDoc = true →
       ((update dt2 false c2 s2).fadeAlpha =
          s2.fadeAlpha + dt2 / s2.fadeDuration ∧
        (s2.fadeAlpha + dt2 / s2.fadeDuration < 1 →
           (update dt2 false c2 s2).isFadingDoc = true ∧
           (update dt2 false c2 s2).docFullImgOpacity =
             s2.fadeAlpha + dt2 / s2.fadeDuration) ∧
        (1 ≤ s2.fadeAlpha + dt2 / s2.fadeDuration →
           (update dt2 false c2 s2).isFadingDoc = false ∧
           (update dt2 false c2 s2).docFullImgOpacity = 1))) ∧
    (runUpdates (dts.map fun d => ⟨d, false, c⟩) s).docFullImgOpacity =
      min 1 (dts.sum / s.fadeDuration) := by
  constructor
  · intro s2 dt2 c2 hor2 hfa2
    rw [update_fading dt2 c2 s2 hor2 hfa2]
    by_cases h1 : (1 : ℚ) ≤ s2.fadeAlpha + dt2 / s2.fadeDuration
    · rw [if_pos h1]
      exact ⟨rfl, fun hlt => absurd h1 (not_le.mpr hlt), fun _ => ⟨rfl, rfl⟩⟩
    · rw [if_neg h1]
      exact ⟨rfl, fun _ => ⟨hfa2, rfl⟩, fun hge => absurd hge h1⟩
  · have h := (fadeRun_opacity c dts s hdts hor hfd).1 hfa (by rw [hop, ha])
      (by rw [ha]) (by rw [ha]; norm_num)
    rw [h, ha, zero_add]

/-- Witness for C2 on concrete inputs: from the start of the fade, one
update of 100 ms advances fadeAlpha to 100 / 2750, and a 2000 ms plus a
1000 ms update together complete the fade at opacity exactly 1. -/
theorem claim_C2_witness :
    (update 100 false 0 fadingState).fadeAlpha = 100 / 2750 ∧
    (runUpdates [⟨2000, false, 0⟩, ⟨1000, false, 0⟩]
        fadingState).docFullImgOpacity = 1 := by
  have h := claim_C2_linear_fade fadingState 0 rfl rfl
    (by norm_num [fadingState, sampleState]) rfl rfl [2000, 1000] (by decide)
  constructor
  · have h1 := (h.1 fadingState 100 0 rfl rfl).1
    simpa [fadingState, sampleState] using h1
  · have h2 := h.2
    have hsum : ([2000, 1000] : List ℚ).sum = 3000 := by norm_num
    rw [hsum] at h2
    have hmin : min (1 : ℚ) (3000 / fadingState.fadeDuration) = 1 := by
      rw [min_eq_left (by norm_num [fadingState, sampleState])]
    rw [hmin] at h2
    exact h2

/-- updateBrowser does not change the current document. -/
theorem updateBrowser_currentDoc (s : HandlerState) :
    (updateBrowser s).currentDoc = s.currentDoc := by
  cases hc : s.currentDoc <;> simp [updateBrowser, hc]

/-- updateBrowser does not change the catalog. -/
theorem updateBrowser_AllDocuments (s : HandlerState) :
    (updateBrowser s).AllDocuments = s.AllDocuments := by
  cases hc : s.currentDoc <;> simp [updateBrowser, hc]

/-- showBillboards does not change the catalog. -/
theorem showBillboards_AllDocuments (f : Bool) (s : HandlerState) :
    (showBillboards f s).AllDocuments = s.AllDocuments := by
  unfold showBillboards
  split <;> rfl

/-- hideBillboards does not change the catalog. -/
theorem hideBillboards_AllDocuments (f : Bool) (s : HandlerState) :
    (hideBillboards f s).AllDocuments = s.AllDocuments := by
  unfold hideBillboards
  split <;> rfl

/-- Indexing the catalog with the JS number i+1 is plain list indexing. -/
theorem jsIndexList_natCast (docs : List Document) (n : ℕ) :
    jsIndexList docs (some ((n : ℕ) : ℚ)) = docs.get? n := by
  simp [jsIndexList, Rat.den_natCast, Rat.num_natCast, Int.toNat_natCast]

/-- Claim C3: next and previous navigation steps through the catalog by one
and is clamped at both ends.  Under the assumption that every loaded
document carries its own position as index, nextDoc moves currentDoc to
position index+1 when index+1 < AllDocuments.length and otherwise leaves
the whole state (current document and browser display) unchanged;
previousDoc moves currentDoc to position index-1 when index is not 0 and
otherwise leaves the state unchanged. -/
theorem claim_C3_nav (s : HandlerState) (doc : Document) (i : ℕ)
    (hidx : ∀ (j : ℕ) (hj : j < s.AllDocuments.length),
       (s.AllDocuments.get ⟨j, hj⟩).index = some ((j : ℕ) : ℚ))
    (hcur : s.currentDoc = some doc)
    (hget : s.AllDocuments.get? i = some doc) :
    (i + 1 < s.AllDocuments.length →
       (nextDoc s).currentDoc = s.AllDocuments.get? (i + 1) ∧
       (nextDoc s).AllDocuments = s.AllDocuments) ∧
    (s.AllDocuments.length ≤ i + 1 → nextDoc s = s) ∧
    (i = 0 → previousDoc s = s) ∧
    (i ≠ 0 →
       (previousDoc s).currentDoc = s.AllDocuments.get? (i - 1) ∧
       (previousDoc s).AllDocuments = s.AllDocuments) := by
  obtain ⟨hi, hgeti⟩ := List.get?_eq_some.mp hget
  have hdi : doc.index = some ((i : ℕ) : ℚ) := by
    rw [← hgeti]
    exact hidx i hi
  have hcast1 : ((i : ℚ) + 1) = (((i + 1 : ℕ) : ℕ) : ℚ) := by
    push_cast
    ring
  have hadd : jsAdd doc.index (some 1) = some (((i + 1 : ℕ) : ℕ) : ℚ) := by
    rw [hdi]
    simp [jsAdd, ← hcast1]
  refine ⟨?_, ?_, ?_, ?_⟩
  · intro hlt
    have hnle : ¬ ((s.AllDocuments.length : ℚ) ≤ ((i + 1 : ℕ) : ℚ)) := by
      rw [Nat.cast_le]
      exact not_le.mpr hlt
    have hred : nextDoc s =
        updateBrowser
          { s with currentDoc := s.AllDocuments.get? (i + 1) } := by
      simp only [nextDoc, hcur, hadd, jsGe, jsIndexList_natCast]
      rw [if_neg]
      simp only [decide_eq_true_eq]
      exact hnle
    rw [hred, updateBrowser_currentDoc, updateBrowser_AllDocuments]
    exact ⟨rfl, rfl⟩
  · intro hge
    have hle : ((s.AllDocuments.length : ℚ) ≤ ((i + 1 : ℕ) : ℚ)) := by
      rw [Nat.cast_le]
      exact hge
    simp only [nextDoc, hcur, hadd, jsGe]
    rw [if_pos]
    simp only [decide_eq_true_eq]
    exact hle
  · intro h0
    subst h0
    have hz : jsStrictEq doc.index (some 0) = true := by
      rw [hdi]
      simp [jsStrictEq]
    simp only [previousDoc, hcur, hz, if_pos]
  · intro hne
    have hz : jsStrictEq doc.index (some 0) = false := by
      rw [hdi]
      simp [jsStrictEq, hne]
    have hsub : jsSub doc.index (some 1) = some (((i - 1 : ℕ) : ℕ) : ℚ) := by
      rw [hdi]
      have h1i : 1 ≤ i := Nat.one_le_iff_ne_zero.mpr hne
      simp only [jsSub]
      congr 1
      push_cast [h1i]
      ring
    have hred : previousDoc s =
        updateBrowser
          { s with currentDoc := s.AllDocuments.get? (i - 1) } := by
      simp only [previousDoc, hcur, hz, hsub, jsIndexList_natCast]
      rw [if_neg]
      simp
    rw [hred, updateBrowser_currentDoc, updateBrowser_AllDocuments]
    exact ⟨rfl, rfl⟩

/-- Witness for C3 on a concrete two-document catalog: previousDoc on the
first document is clamped and nextDoc moves to position 1. -/
theorem claim_C3_witness :
    previousDoc navState = navState ∧
    (nextDoc navState).currentDoc = navState.AllDocuments.get? 1 := by
  have h := claim_C3_nav navState sampleDoc 0
    (by
      intro j hj
      have hj2 : j < 2 := by simpa [navState, sampleState] using hj
      interval_cases j
      · exact show sampleDoc.index = some ((0 : ℕ) : ℚ) by decide
      · exact show sampleDoc1.index = some ((1 : ℕ) : ℚ) by decide)
    rfl rfl
  exact ⟨h.2.2.1 rfl, (h.1 (by decide)).1⟩

/-- Claim C4: the catalog loader converts every row of the data file into
exactly one Document record, in row order: starting from the fresh state
with an empty catalog, initialize leaves AllDocuments with exactly one
Document per row, and the Document at position i is the one built from row
i by the loop body (mkDocFromRow). -/
theorem claim_C4_initialize (parseFloat : String → JsNum) (rows : List Row)
    (s : HandlerState) (hempty : s.AllDocuments = []) :
    (initializeHandler parseFloat rows s).AllDocuments.length =
      rows.length ∧
    ∀ i : ℕ, (initializeHandler parseFloat rows s).AllDocuments.get? i =
      (rows.get? i).map (mkDocFromRow parseFloat) := by
  have hdocs : (initializeHandler parseFloat rows s).AllDocuments =
      rows.map (mkDocFromRow parseFloat) := by
    unfold initializeHandler
    dsimp only
    split
    · rw [showBillboards_AllDocuments, updateBrowser_AllDocuments]
      simp [hempty]
    · rw [hideBillboards_AllDocuments, updateBrowser_AllDocuments]
      simp [hempty]
  rw [hdocs]
  exact ⟨by simp, fun i => by simp [List.get?_eq_getElem?, List.getElem?_map]⟩

/-- Witness for C4 on a one-row file: the catalog gets exactly one document,
built from that row. -/
theorem claim_C4_witness :
    sampleState.AllDocuments = [] ∧
    (initializeHandler samplePF [sampleRow] sampleState).AllDocuments.length
      = 1 ∧
    (initializeHandler samplePF [sampleRow] sampleState).AllDocuments.get? 0
      = some (mkDocFromRow samplePF sampleRow) := by
  have h := claim_C4_initialize samplePF [sampleRow] sampleState rfl
  refine ⟨rfl, h.1, ?_⟩
  rw [h.2 0]
  rfl

/-- Membership after the billboard-adding loop: an object is in the scene
iff it already was, or it is the plane or frame of a useBillboard document
of the processed list, keyed from offset i. -/
theorem mem_addBillboards (p : ℕ × Bool) :
    ∀ (ds : List Document) (i : ℕ) (sc : Finset (ℕ × Bool)),
      (p ∈ addBillboards i ds sc ↔
        p ∈ sc ∨ ∃ j d, ds.get? j = some d ∧ d.useBillboard = true ∧
          p.1 = i + j) := by
  intro ds
  induction ds with
  | nil =>
    intro i sc
    simp [addBillboards]
  | cons d ds ih =>
    intro i sc
    have hstep : addBillboards i (d :: ds) sc =
        addBillboards (i + 1) ds
          (if d.useBillboard then insert (i, true) (insert (i, false) sc)
           else sc) := rfl
    rw [hstep, ih]
    cases hub : d.useBillboard with
    | true =>
      simp only [if_true]
      constructor
      · rintro (hmem | ⟨j, d2, hj, hu2, hp⟩)
        · rcases Finset.mem_insert.mp hmem with h1 | hmem2
          · exact Or.inr ⟨0, d, rfl, hub, by simp [h1]⟩
          · rcases Finset.mem_insert.mp hmem2 with h1 | hmem3
            · exact Or.inr ⟨0, d, rfl, hub, by simp [h1]⟩
            · exact Or.inl hmem3
        · exact Or.inr ⟨j + 1, d2, by simpa using hj, hu2,
            by rw [hp]; ring⟩
      · rintro (hmem | ⟨j, d2, hj, hu2, hp⟩)
        · exact Or.inl
            (Finset.mem_insert_of_mem (Finset.mem_insert_of_mem hmem))
        · cases j with
          | zero =>
            left
            have hp1 : p.1 = i := by simpa using hp
            cases hb : p.2 with
            | true =>
              rw [show p = (i, true) by rw [← hp1, ← hb]]
              exact Finset.mem_insert_self _ _
            | false =>
              rw [show p = (i, false) by rw [← hp1, ← hb]]
              exact Finset.mem_insert_of_mem (Finset.mem_insert_self _ _)
          | succ k =>
            exact Or.inr ⟨k, d2, by simpa using hj, hu2, by rw [hp]; ring⟩
    | false =>
      simp only [Bool.false_eq_true, if_false]
      constructor
      · rintro (hmem | ⟨j, d2, hj, hu2, hp⟩)
        · exact Or.inl hmem
        · exact Or.inr ⟨j + 1, d2, by simpa using hj, hu2,
            by rw [hp]; ring⟩
      · rintro (hmem | ⟨j, d2, hj, hu2, hp⟩)
        · exact Or.inl hmem
        · cases j with
          | zero =>
            have hd2 : d = d2 := by simpa using hj
            rw [← hd2, hub] at hu2
            exact absurd hu2 (by simp)
          | succ k =>
            exact Or.inr ⟨k, d2, by simpa using hj, hu2, by rw [hp]; ring⟩

/-- Membership after the billboard-removing loop: an object remains in the
scene iff it was there and it is not the plane or frame of a useBillboard
document of the processed list, keyed from offset i. -/
theorem mem_removeBillboards (p : ℕ × Bool) :
    ∀ (ds : List Document) (i : ℕ) (sc : Finset (ℕ × Bool)),
      (p ∈ removeBillboards i ds sc ↔
        p ∈ sc ∧ ¬∃ j d, ds.get? j = some d ∧ d.useBillboard = true ∧
          p.1 = i + j) := by
  intro ds
  induction ds with
  | nil =>
    intro i sc
    simp [removeBillboards]
  | cons d ds ih =>
    intro i sc
    have hstep : removeBillboards i (d :: ds) sc =
        removeBillboards (i + 1) ds
          (if d.useBillboard then (sc.erase (i, true)).erase (i, false)
           else sc) := rfl
    rw [hstep, ih]
    cases hub : d.useBillboard with
    | true =>
      simp only [if_true]
      rw [Finset.mem_erase, Finset.mem_erase]
      constructor
      · rintro ⟨⟨hne1, hne2, hmem⟩, hno⟩
        refine ⟨hmem, ?_⟩
        rintro ⟨j, d2, hj, hu2, hp⟩
        cases j with
        | zero =>
          have hp1 : p.1 = i := by simpa using hp
          cases hb : p.2 with
          | true =>
            exact hne2 (by rw [← hp1, ← hb])
          | false =>
            exact hne1 (by rw [← hp1, ← hb])
        | succ k =>
          exact hno ⟨k, d2, by simpa using hj, hu2, by rw [hp]; ring⟩
      · rintro ⟨hmem, hno⟩
        have hp1 : p.1 ≠ i := by
          intro hpi
          exact hno ⟨0, d, rfl, hub, by simp [hpi]⟩
        refine ⟨⟨?_, ?_, hmem⟩, ?_⟩
        · intro hcon
          exact hp1 (by rw [hcon])
        · intro hcon
          exact hp1 (by rw [hcon])
        · rintro ⟨j, d2, hj, hu2, hp⟩
          exact hno ⟨j + 1, d2, by simpa using hj, hu2, by rw [hp]; ring⟩
    | false =>
      simp only [Bool.false_eq_true, if_false]
      constructor
      · rintro ⟨hmem, hno⟩
        refine ⟨hmem, ?_⟩
        rintro ⟨j, d2, hj, hu2, hp⟩
        cases j with
        | zero =>
          have hd2 : d = d2 := by simpa using hj
          rw [← hd2, hub] at hu2
          exact absurd hu2 (by simp)
        | succ k =>
          exact hno ⟨k, d2, by simpa using hj, hu2, by rw [hp]; ring⟩
      · rintro ⟨hmem, hno⟩
        refine ⟨hmem, ?_⟩
        rintro ⟨j, d2, hj, hu2, hp⟩
        exact hno ⟨j + 1, d2, by simpa using hj, hu2, by rw [hp]; ring⟩

/-- Forced show rewrites the scene through the adding loop. -/
theorem showBillboards_true_scene (s : HandlerState) :
    (showBillboards true s).scene =
      addBillboards 0 s.AllDocuments s.scene := by
  simp [showBillboards]

/-- Forced hide rewrites the scene through the removing loop. -/
theorem hideBillboards_true_scene (s : HandlerState) :
    (hideBillboards true s).scene =
      removeBillboards 0 s.AllDocuments s.scene := by
  simp [hideBillboards]

/-- Claim C5: billboards are shown and hidden as a group.  After
showBillboards(true) every useBillboard document has its plane and its
frame in the scene; after hideBillboards(true) no useBillboard document has
its plane or frame in the scene; toggleBillboards flips billboardsAreActive
and performs the corresponding forced whole-group show or hide; and none of
the three operations ever adds or removes the objects of a document whose
useBillboard is false. -/
theorem claim_C5_billboards_group (s : HandlerState) :
    (∀ (i : ℕ) (d : Document) (b : Bool),
       s.AllDocuments.get? i = some d → d.useBillboard = true →
       (i, b) ∈ (showBillboards true s).scene) ∧
    (∀ (i : ℕ) (d : Document) (b : Bool),
       s.AllDocuments.get? i = some d → d.useBillboard = true →
       (i, b) ∉ (hideBillboards true s).scene) ∧
    (s.billboardsAreActive = true →
       toggleBillboards s =
         hideBillboards true { s with billboardsAreActive := false }) ∧
    (s.billboardsAreActive = false →
       toggleBillboards s =
         showBillboards true { s with billboardsAreActive := true }) ∧
    (∀ (i : ℕ) (d : Document) (b : Bool),
       s.AllDocuments.get? i = some d → d.useBillboard = false →
       (((i, b) ∈ (showBillboards true s).scene ↔ (i, b) ∈ s.scene) ∧
        ((i, b) ∈ (hideBillboards true s).scene ↔ (i, b) ∈ s.scene) ∧
        ((i, b) ∈ (toggleBillboards s).scene ↔ (i, b) ∈ s.scene))) := by
  have hshow : ∀ (t : HandlerState) (i : ℕ) (d : Document) (b : Bool),
      t.AllDocuments.get? i = some d → d.useBillboard = true →
      (i, b) ∈ (showBillboards true t).scene := by
    intro t i d b hget hub
    rw [showBillboards_true_scene]
    exact (mem_addBillboards (i, b) t.AllDocuments 0 t.scene).mpr
      (Or.inr ⟨i, d, hget, hub, by simp⟩)
  have hhide : ∀ (t : HandlerState) (i : ℕ) (d : Document) (b : Bool),
      t.AllDocuments.get? i = some d → d.useBillboard = true →
      (i, b) ∉ (hideBillboards true t).scene := by
    intro t i d b hget hub hmem
    rw [hideBillboards_true_scene] at hmem
    rcases (mem_removeBillboards (i, b) t.AllDocuments 0 t.scene).mp hmem
      with ⟨_, hno⟩
    exact hno ⟨i, d, hget, hub, by simp⟩
  have hshowF : ∀ (t : HandlerState) (i : ℕ) (d : Document) (b : Bool),
      t.AllDocuments.get? i = some d → d.useBillboard = false →
      (((i, b) ∈ (showBillboards true t).scene) ↔ (i, b) ∈ t.scene) := by
    intro t i d b hget hub
    rw [showBillboards_true_scene,
      mem_addBillboards (i, b) t.AllDocuments 0 t.scene]
    constructor
    · rintro (hmem | ⟨j, d2, hj, hu2, hp⟩)
      · exact hmem
      · exfalso
        have hji : j = i := by simpa using hp.symm
        rw [hji, hget] at hj
        have hd2 : d = d2 := by simpa using hj
        rw [← hd2, hub] at hu2
        exact absurd hu2 (by simp)
    · exact Or.inl
  have hhideF : ∀ (t : HandlerState) (i : ℕ) (d : Document) (b : Bool),
      t.AllDocuments.get? i = some d → d.useBillboard = false →
      (((i, b) ∈ (hideBillboards true t).scene) ↔ (i, b) ∈ t.scene) := by
    intro t i d b hget hub
    rw [hideBillboards_true_scene,
      mem_removeBillboards (i, b) t.AllDocuments 0 t.scene]
    constructor
    · rintro ⟨hmem, _⟩
      exact hmem
    · intro hmem
      refine ⟨hmem, ?_⟩
      rintro ⟨j, d2, hj, hu2, hp⟩
      have hji : j = i := by simpa using hp.symm
      rw [hji, hget] at hj
      have hd2 : d = d2 := by simpa using hj
      rw [← hd2, hub] at hu2
      exact absurd hu2 (by simp)
  have htogT : s.billboardsAreActive = true →
      toggleBillboards s =
        hideBillboards true { s with billboardsAreActive := false } := by
    intro hact
    simp [toggleBillboards, hact]
  have htogF : s.billboardsAreActive = false →
      toggleBillboards s =
        showBillboards true { s with billboardsAreActive := true } := by
    intro hact
    simp [toggleBillboards, hact]
  refine ⟨hshow s, hhide s, htogT, htogF, ?_⟩
  intro i d b hget hub
  refine ⟨hshowF s i d b hget hub, hhideF s i d b hget hub, ?_⟩
  cases hact : s.billboardsAreActive with
  | true =>
    rw [htogT hact]
    exact hhideF { s with billboardsAreActive := false } i d b hget hub
  | false =>
    rw [htogF hact]
    exact hshowF { s with billboardsAreActive := true } i d b hget hub

/-- Witness for C5 on a concrete two-document catalog (document 0 has a
billboard, document 1 does not): forced show puts the plane and frame of
document 0 in the scene, forced hide takes them out, and document 1 never
appears. -/
theorem claim_C5_witness :
    ((0 : ℕ), false) ∈ (showBillboards true navState).scene ∧
    ((0 : ℕ), true) ∉ (hideBillboards true navState).scene ∧
    (((1 : ℕ), false) ∈ (showBillboards true navState).scene ↔
      ((1 : ℕ), false) ∈ navState.scene) := by
  have h := claim_C5_billboards_group navState
  exact ⟨h.1 0 sampleDoc false rfl (by decide),
    h.2.1 0 sampleDoc true rfl (by decide),
    (h.2.2.2.2 1 sampleDoc1 false rfl (by decide)).1⟩

/-- hideBillboards changes only the toggle-button label and the scene. -/
theorem hideBillboards_fields (f : Bool) (s : HandlerState) :
    (hideBillboards f s).currentDoc = s.currentDoc ∧
    (hideBillboards f s).docFullImgOpacity = s.docFullImgOpacity ∧
    (hideBillboards f s).docFullImgSrc = s.docFullImgSrc ∧
    (hideBillboards f s).docFullDisplay = s.docFullDisplay := by
  unfold hideBillboards
  split <;> exact ⟨rfl, rfl, rfl, rfl⟩

/-- Claim C8: focusOnDoc commands the camera to the current documents
stored pose exactly when that pose is valid: the travel command handed to
controls.initiateTravel carries viewPosition and viewQuaternion iff
viewPosition.x and viewQuaternion.x are both not NaN; in either case the
full-resolution image is displayed at opacity 0, the handler enters the
orienting state (isOrientingDoc up, isFadingDoc down) and the billboards
are hidden. -/
theorem claim_C8_focusOnDoc (s : HandlerState) (doc : Document)
    (hcur : s.currentDoc = some doc) :
    ((focusOnDoc s).2 = some (doc.viewPosition, doc.viewQuaternion) ↔
       (doc.viewPosition.x ≠ none ∧ doc.viewQuaternion.x ≠ none)) ∧
    (focusOnDoc s).1.docFullImgSrc = some doc.imageSourceHD ∧
    (focusOnDoc s).1.docFullImgOpacity = 0 ∧
    (focusOnDoc s).1.docFullDisplay = true ∧
    (focusOnDoc s).1.isOrientingDoc = true ∧
    (focusOnDoc s).1.isFadingDoc = false ∧
    (∀ (i : ℕ) (d : Document) (b : Bool),
       s.AllDocuments.get? i = some d → d.useBillboard = true →
       (i, b) ∉ (focusOnDoc s).1.scene) := by
  have hfoc : focusOnDoc s = focusOnDocCore doc s := by
    rw [focusOnDoc, hcur]
  rw [hfoc]
  refine ⟨?_, ?_, ?_, ?_, ?_, ?_, ?_⟩
  · cases hvx : doc.viewPosition.x <;> cases hqx : doc.viewQuaternion.x <;>
      simp [focusOnDocCore, isNaNJs, hvx, hqx]
  · simp [focusOnDocCore, hideBillboards]
  · simp [focusOnDocCore, hideBillboards]
  · simp [focusOnDocCore, hideBillboards]
  · rfl
  · rfl
  · intro i d b hget hub hmem
    have hscene : (focusOnDocCore doc s).1.scene =
        removeBillboards 0 s.AllDocuments s.scene := by
      simp [focusOnDocCore, hideBillboards]
    rw [hscene] at hmem
    rcases (mem_removeBillboards (i, b) s.AllDocuments 0 s.scene).mp hmem
      with ⟨_, hno⟩
    exact hno ⟨i, d, hget, hub, by simp⟩

/-- Witness for C8 on a concrete state: the current document has a valid
pose, so the travel command carries it, the orienting state is entered and
the billboard plane of document 0 leaves the scene. -/
theorem claim_C8_witness :
    (focusOnDoc navState).2 =
      some (sampleDoc.viewPosition, sampleDoc.viewQuaternion) ∧
    (focusOnDoc navState).1.isOrientingDoc = true ∧
    (focusOnDoc navState).1.docFullImgOpacity = 0 ∧
    ((0 : ℕ), false) ∉ (focusOnDoc navState).1.scene := by
  have h := claim_C8_focusOnDoc navState sampleDoc rfl
  exact ⟨h.1.mpr (by decide), h.2.2.2.2.1, h.2.2.1,
    h.2.2.2.2.2.2 0 sampleDoc false rfl (by decide)⟩

/-- focusOnDoc keeps the current document it was invoked on. -/
theorem focusOnDoc_currentDoc (s : HandlerState) (doc : Document)
    (hc : s.currentDoc = some doc) :
    (focusOnDoc s).1.currentDoc = some doc := by
  rw [focusOnDoc, hc]
  simp [focusOnDocCore, hideBillboards, hc]

/-- Claim C6: a mouse click triggers the oriented view of the document of
the first intersected billboard: when the raycaster result contains no
billboard the state is unchanged and no travel is issued, and when its
first billboard object carries document doc, onMouseClick is exactly
focusOnDoc on the state whose currentDoc is doc, in particular currentDoc
becomes doc. -/
theorem claim_C6_click (s : HandlerState) (intersects : List SceneObject) :
    ((∀ o ∈ intersects, isBillboardObject o = false) →
       onMouseClick intersects s = (s, none)) ∧
    (∀ (o2 : SceneObject) (doc : Document),
       intersects.find? isBillboardObject = some o2 →
       o2.userData = UserData.billboard doc →
       onMouseClick intersects s =
         focusOnDoc { s with currentDoc := some doc } ∧
       (onMouseClick intersects s).1.currentDoc = some doc) := by
  induction intersects with
  | nil =>
    constructor
    · intro _
      rfl
    · intro o2 doc hfind
      simp [List.find?] at hfind
  | cons o rest ih =>
    cases hu : o.userData with
    | billboard doc0 =>
      have hib : isBillboardObject o = true := by
        simp [isBillboardObject, hu]
      constructor
      · intro hall
        exact absurd (hall o (by simp)) (by simp [hib])
      · intro o2 doc hfind hdoc
        have ho2 : o = o2 := by
          simpa [List.find?, hib] using hfind
        rw [← ho2, hu] at hdoc
        have hd : doc0 = doc := by
          simpa using hdoc
        have hred : onMouseClick (o :: rest) s =
            focusOnDoc { s with currentDoc := some doc0 } := by
          simp only [onMouseClick, onMouseClickLoop, hu]
        rw [hred, hd]
        exact ⟨rfl, focusOnDoc_currentDoc _ doc rfl⟩
    | other =>
      have hib : isBillboardObject o = false := by
        simp [isBillboardObject, hu]
      have hred : onMouseClick (o :: rest) s = onMouseClick rest s := by
        simp only [onMouseClick, onMouseClickLoop, hu]
      constructor
      · intro hall
        rw [hred]
        exact ih.1 fun x hx => hall x (by simp [hx])
      · intro o2 doc hfind hdoc
        have hfind2 : rest.find? isBillboardObject = some o2 := by
          simpa [List.find?, hib] using hfind
        rw [hred]
        exact ih.2 o2 doc hfind2 hdoc

/-- Witness for C6 on concrete intersection lists: a billboard-free click
leaves the state untouched with no travel, and a click whose second
intersection is the billboard of document 1 makes it current. -/
theorem claim_C6_witness :
    onMouseClick [SceneObject.mk UserData.other] sampleState =
      (sampleState, none) ∧
    (onMouseClick [SceneObject.mk UserData.other,
        SceneObject.mk (UserData.billboard sampleDoc1)]
      sampleState).1.currentDoc = some sampleDoc1 := by
  refine ⟨(claim_C6_click sampleState [SceneObject.mk UserData.other]).1
    (by decide), ?_⟩
  exact ((claim_C6_click sampleState [SceneObject.mk UserData.other,
    SceneObject.mk (UserData.billboard sampleDoc1)]).2
    (SceneObject.mk (UserData.billboard sampleDoc1)) sampleDoc1 rfl rfl).2

/-- The fade step never changes the orienting flag. -/
theorem fadeStep_isOrientingDoc (dt : ℚ) (s : HandlerState) :
    (fadeStep dt s).isOrientingDoc = s.isOrientingDoc := by
  unfold fadeStep
  dsimp only
  split
  · split <;> rfl
  · rfl

/-- The fade step never raises the fading flag: if it is up afterwards it
was up before. -/
theorem fadeStep_isFadingDoc (dt : ℚ) (s : HandlerState) :
    (fadeStep dt s).isFadingDoc = true → s.isFadingDoc = true := by
  unfold fadeStep
  dsimp only
  split
  · intro _
    assumption
  · intro h
    exact h

/-- When the orienting-to-fading guard is down the transition does
nothing. -/
theorem orientTransition_guard_false (c : Int) (s : HandlerState)
    (hg : (s.isOrientingDoc && (c == -1)) = false) :
    orientTransition c s = s := by
  simp [orientTransition, hg]

/-- When the orienting-to-fading guard is up the transition lowers the
orienting flag and raises the fading flag. -/
theorem orientTransition_guard_true (c : Int) (s : HandlerState)
    (hg : (s.isOrientingDoc && (c == -1)) = true) :
    (orientTransition c s).isOrientingDoc = false ∧
    (orientTransition c s).isFadingDoc = true := by
  simp [orientTransition, hg]

/-- One focusOnDoc or update call keeps isOrientingDoc and isFadingDoc from
being both up. -/
theorem runOp_mutex (s : HandlerState) (op : HandlerOp)
    (h : ¬(s.isOrientingDoc = true ∧ s.isFadingDoc = true)) :
    ¬((runOp s op).isOrientingDoc = true ∧
      (runOp s op).isFadingDoc = true) := by
  cases op with
  | focus =>
    cases hc : s.currentDoc with
    | none => simpa [runOp, focusOnDoc, hc] using h
    | some doc => simp [runOp, focusOnDoc, hc, focusOnDocCore]
  | upd dt r c =>
    intro hboth
    obtain ⟨hO, hF⟩ := hboth
    have hEq : runOp s (HandlerOp.upd dt r c) =
        fadeStep (if r then 16 else dt) (orientTransition c s) := rfl
    rw [hEq] at hO hF
    rw [fadeStep_isOrientingDoc] at hO
    have hsF := fadeStep_isFadingDoc _ _ hF
    cases hg : (s.isOrientingDoc && (c == -1)) with
    | true =>
      have hfalse := (orientTransition_guard_true c s hg).1
      rw [hfalse] at hO
      exact absurd hO (by simp)
    | false =>
      rw [orientTransition_guard_false c s hg] at hO hsF
      exact h ⟨hO, hsF⟩

/-- Claim C10: the orienting and fading flags are mutually exclusive: in
every state reachable from a state with both flags down through any
sequence of focusOnDoc and update calls the two flags are never both up;
moreover focusOnDoc always raises isOrientingDoc and lowers isFadingDoc,
and an update call that raises isFadingDoc does so exactly in the step in
which it lowers isOrientingDoc. -/
theorem claim_C10_flags_mutually_exclusive (s : HandlerState)
    (h1 : s.isOrientingDoc = false) (h2 : s.isFadingDoc = false)
    (ops : List HandlerOp) :
    (¬((runOps ops s).isOrientingDoc = true ∧
       (runOps ops s).isFadingDoc = true)) ∧
    (∀ (t : HandlerState) (doc : Document), t.currentDoc = some doc →
       (focusOnDoc t).1.isOrientingDoc = true ∧
       (focusOnDoc t).1.isFadingDoc = false) ∧
    (∀ (t : HandlerState) (dt : ℚ) (r : Bool) (c : Int),
       (update dt r c t).isFadingDoc = true →
       t.isFadingDoc = true ∨
         (t.isOrientingDoc = true ∧
          (update dt r c t).isOrientingDoc = false)) := by
  refine ⟨?_, ?_, ?_⟩
  · have key : ∀ (l : List HandlerOp) (t : HandlerState),
        ¬(t.isOrientingDoc = true ∧ t.isFadingDoc = true) →
        ¬((runOps l t).isOrientingDoc = true ∧
          (runOps l t).isFadingDoc = true) := by
      intro l
      induction l with
      | nil => intro t ht; exact ht
      | cons op rest ih =>
        intro t ht
        exact ih (runOp t op) (runOp_mutex t op ht)
    exact key ops s (by rw [h1, h2]; simp)
  · intro t doc hc
    simp [focusOnDoc, hc, focusOnDocCore]
  · intro t dt r c hfad
    cases hf : t.isFadingDoc with
    | true => exact Or.inl rfl
    | false =>
      cases hg : (t.isOrientingDoc && (c == -1)) with
      | false =>
        exfalso
        have hEq : update dt r c t =
            fadeStep (if r then 16 else dt) (orientTransition c t) := rfl
        rw [hEq, orientTransition_guard_false c t hg] at hfad
        have hft := fadeStep_isFadingDoc _ _ hfad
        rw [hf] at hft
        exact absurd hft (by simp)
      | true =>
        right
        have ho : t.isOrientingDoc = true := by
          rw [Bool.and_eq_true] at hg
          exact hg.1
        refine ⟨ho, ?_⟩
        have hEq : update dt r c t =
            fadeStep (if r then 16 else dt) (orientTransition c t) := rfl
        rw [hEq, fadeStep_isOrientingDoc]
        exact (orientTransition_guard_true c t hg).1

/-- Witness for C10 on concrete inputs: starting from the constructor state
and running a focusOnDoc followed by one idle-controls update, the two
flags are not both up. -/
theorem claim_C10_witness :
    ¬((runOps [HandlerOp.focus, HandlerOp.upd 16 false (-1)]
        sampleState).isOrientingDoc = true ∧
      (runOps [HandlerOp.focus, HandlerOp.upd 16 false (-1)]
        sampleState).isFadingDoc = true) :=
  (claim_C10_flags_mutually_exclusive sampleState rfl rfl
    [HandlerOp.focus, HandlerOp.upd 16 false (-1)]).1

/-- Claim C9: toggleDocBrowserWindow never changes the
docBrowserWindowIsActive flag: the reassignment maps true to true and false
to false, the display is set to the current flag value, and a repeated call
produces the same state rather than alternating the display. -/
theorem claim_C9_toggleDocBrowserWindow (s : HandlerState) :
    (toggleDocBrowserWindow s).docBrowserWindowIsActive =
      s.docBrowserWindowIsActive ∧
    (toggleDocBrowserWindow s).docBrowserWindowDisplay =
      s.docBrowserWindowIsActive ∧
    toggleDocBrowserWindow (toggleDocBrowserWindow s) =
      toggleDocBrowserWindow s := by
  refine ⟨?_, rfl, ?_⟩ <;>
    cases h : s.docBrowserWindowIsActive <;>
      simp [toggleDocBrowserWindow, h]

/-- Claim C7: the billboard position of a Document is optional, with absence
encoded as NaN coordinates: useBillboard holds iff none of the three
components of the supplied billboard position is NaN, and the billboard
plane and frame are created exactly when useBillboard holds, placed at that
position. -/
theorem claim_C7_useBillboard_optional (t : String) (idx docID : JsNum)
    (hd bd : String) (bp vp : Vec3) (vq : Quat) (dte m : String)
    (doc : Document)
    (hdoc : doc = mkDocument t idx docID hd bd bp vp vq dte m) :
    (doc.useBillboard = true ↔ bp.x ≠ none ∧ bp.y ≠ none ∧ bp.z ≠ none) ∧
    (doc.useBillboard = true →
       doc.billboardGeometry =
         some { position := bp, layer := 1, userDataTypeIsBillboard := true } ∧
       doc.billboardGeometryFrame =
         some { position := bp, layer := 1,
                userDataTypeIsBillboard := false }) ∧
    (doc.useBillboard = false →
       doc.billboardGeometry = none ∧ doc.billboardGeometryFrame = none) := by
  subst hdoc
  rcases bp with ⟨bx, by2, bz⟩
  cases bx <;> cases by2 <;> cases bz <;>
    simp [mkDocument, isNaNJs]

/-- Witness for C7 at a concrete document: sampleDoc has a billboard, placed
at its billboard position. -/
theorem claim_C7_witness :
    sampleDoc.useBillboard = true ∧
    sampleDoc.billboardGeometry =
      some { position := sampleVec, layer := 1,
             userDataTypeIsBillboard := true } :=
  ⟨by decide,
   ((claim_C7_useBillboard_optional "title" (some 0) (some 10) "hd" "bd"
       sampleVec sampleVec sampleQuat "1900" "meta" sampleDoc rfl).2.1
     (by decide)).1⟩

end UDV
